import Mathlib

/-!
# Shallow embedding of the `aerodynamics` 2D potential-flow core

This file embeds `src/potential/d2/_point.py` (the singularity primitives
`PointDoublet`, `PointSource`, `PointVortex`) and
`src/potential/d2/_flow_field.py` (the aggregator `FlowField2D`) in Lean, and
proves/refutes the frozen claims about them.

Modelling conventions:
* Python floats are modelled as `Option ℝ`: `some r` is a finite value, `none`
  lumps the non-finite IEEE values (NaN, ±inf).  In the evaluated code a
  non-finite value only ever arises from an elementwise division whose
  denominator is exactly `0` (there `0/0` gives NaN and `c/0` gives ±inf), and
  non-finite operands propagate through `+`, `-`, `*`, `**` to a non-finite
  result, which the `none` propagation below reproduces.  Divisors in the code
  are always finite (they come from grid coordinates), so the behaviour of
  dividing *by* a non-finite value never matters.
* A value flowing through the code is either a scalar or a (2-D) ndarray;
  elementwise numpy arithmetic broadcasts scalars over arrays.  Both operands
  of an array/array operation always share a shape in the evaluated code, so
  the embedding takes the left operand's shape.
* Fallible operations return `Except PyErr`: Python-level exceptions
  (AttributeError from reading a never-assigned attribute, TypeError from
  `math.log` applied to an array of size ≠ 1, ValueError from `math.log` of a
  nonpositive scalar or `np.linspace` with a negative sample count,
  ZeroDivisionError from scalar division by zero).
* Scalar arithmetic on the Python floats held in `self` (e.g. the constant
  `-self.strength / 2. / pi`, whose divisors `2` and `pi` are nonzero) cannot
  raise and is folded into a single real-valued constant.
* The float exponents `**2.` and `**4.` are integral-valued, so they are
  modelled with natural-number exponents.
-/

noncomputable section

/-- Python exception kinds that the embedded code can raise. -/
inductive PyErr where
  | attributeError
  | typeError
  | valueError
  | zeroDivisionError
deriving DecidableEq

/-- A Python/numpy float: `some r` is the finite value `r`, `none` is
non-finite (NaN/±inf). -/
abbrev PyFloat := Option ℝ

/-- Elementwise addition; non-finite operands propagate. -/
def fadd : PyFloat → PyFloat → PyFloat
  | some a, some b => some (a + b)
  | _, _ => none

/-- Elementwise subtraction; non-finite operands propagate. -/
def fsub : PyFloat → PyFloat → PyFloat
  | some a, some b => some (a - b)
  | _, _ => none

/-- Elementwise multiplication; non-finite operands propagate. -/
def fmul : PyFloat → PyFloat → PyFloat
  | some a, some b => some (a * b)
  | _, _ => none

/-- Elementwise power with an integral exponent. -/
def fpow : PyFloat → ℕ → PyFloat
  | some a, n => some (a ^ n)
  | none, _ => none

/-- numpy elementwise division: a zero denominator yields a non-finite value
(NaN or ±inf) instead of raising. -/
def fdivA : PyFloat → PyFloat → PyFloat
  | some a, some b => if b = 0 then none else some (a / b)
  | _, _ => none

/-- numpy `arctan2`, elementwise: `arctan2 y x` is the angle of the point
`(x, y)`, i.e. `Complex.arg (x + y*I)`. -/
def fatan2 : PyFloat → PyFloat → PyFloat
  | some y, some x => some (Complex.arg (x + y * Complex.I))
  | _, _ => none

/-- A 2-D ndarray: a shape `(rows, cols)` together with the cell values
(indexing outside the shape is irrelevant to every statement below). -/
@[ext]
structure Arr2 where
  rows : ℕ
  cols : ℕ
  val : ℕ → ℕ → PyFloat

/-- A Python value flowing through the flow-field code: a float scalar or a
2-D ndarray. -/
inductive PyVal where
  | float : PyFloat → PyVal
  | arr : Arr2 → PyVal

/-- A finite float scalar. -/
def pyfloat (r : ℝ) : PyVal := .float (some r)

/-- Elementwise lift of a binary float operation, with scalar broadcasting.
Both operands of an array/array operation share a shape in the evaluated
code; the embedding takes the left operand's shape. -/
def lift2 (f : PyFloat → PyFloat → PyFloat) : PyVal → PyVal → PyVal
  | .float a, .float b => .float (f a b)
  | .float a, .arr B => .arr ⟨B.rows, B.cols, fun i j => f a (B.val i j)⟩
  | .arr A, .float b => .arr ⟨A.rows, A.cols, fun i j => f (A.val i j) b⟩
  | .arr A, .arr B => .arr ⟨A.rows, A.cols, fun i j => f (A.val i j) (B.val i j)⟩

/-- Python/numpy `+`. -/
def pyadd : PyVal → PyVal → PyVal := lift2 fadd

/-- Python/numpy `-`. -/
def pysub : PyVal → PyVal → PyVal := lift2 fsub

/-- Python/numpy `*`. -/
def pymul : PyVal → PyVal → PyVal := lift2 fmul

/-- Python/numpy `**` with an integral exponent. -/
def pypow (v : PyVal) (n : ℕ) : PyVal :=
  match v with
  | .float a => .float (fpow a n)
  | .arr A => .arr ⟨A.rows, A.cols, fun i j => fpow (A.val i j) n⟩

/-- Python/numpy `/`.  Scalar division by exactly zero raises
`ZeroDivisionError`; with an ndarray operand numpy divides elementwise and a
zero denominator yields a non-finite cell instead of raising. -/
def pydiv : PyVal → PyVal → Except PyErr PyVal
  | .float a, .float (some y) =>
      if y = 0 then .error .zeroDivisionError else .ok (.float (fdivA a (some y)))
  | .float _, .float none => .ok (.float none)
  | v, w => .ok (lift2 fdivA v w)

/-- `math.log` on a scalar: raises ValueError (math domain error) for a
nonpositive argument. -/
def mathlogF : PyFloat → Except PyErr PyVal
  | some r => if r ≤ 0 then .error .valueError else .ok (.float (some (Real.log r)))
  | none => .ok (.float none)

/-- `math.log` from the Python standard library: accepts a scalar; an ndarray
argument is coerced through `float()`, which succeeds only for size-1 arrays
and raises TypeError otherwise. -/
def math_log : PyVal → Except PyErr PyVal
  | .float f => mathlogF f
  | .arr A => if A.rows * A.cols = 1 then mathlogF (A.val 0 0) else .error .typeError

/-- `numpy.arctan2`, elementwise with broadcasting. -/
def np_arctan2 (y x : PyVal) : PyVal := lift2 fatan2 y x

/-- `np.ones(shape)`. -/
def np_ones (r c : ℕ) : Arr2 := ⟨r, c, fun _ _ => some 1⟩

/-! ## The singularity primitives (`src/potential/d2/_point.py`) -/

/-- `class PointDoublet` — constructor defaults `x=0., y=0., strength=1.,
default_color='g'`. -/
structure PointDoublet where
  x : ℝ := 0
  y : ℝ := 0
  strength : ℝ := 1
  default_color : String := "g"

/-- `PointDoublet.compute_flow`:
`xrel = x - self.x; yrel = y - self.y;`
`u = -strength/2/pi * (xrel**2 - y**2) / (xrel**2 + yrel**2)**2`
(note the absolute `y**2`, exactly as in the source),
`v = -strength/2/pi * 2 * xrel * yrel / (xrel**2 + yrel**2)**2`. -/
def PointDoublet.compute_flow (d : PointDoublet) (x y : PyVal) :
    Except PyErr (PyVal × PyVal) := do
  let xrel := pysub x (pyfloat d.x)
  let yrel := pysub y (pyfloat d.y)
  let u ← pydiv (pymul (pyfloat (-d.strength / 2 / Real.pi))
                       (pysub (pypow xrel 2) (pypow y 2)))
                (pypow (pyadd (pypow xrel 2) (pypow yrel 2)) 2)
  let v ← pydiv (pymul (pymul (pymul (pyfloat (-d.strength / 2 / Real.pi)) (pyfloat 2))
                              xrel) yrel)
                (pypow (pyadd (pypow xrel 2) (pypow yrel 2)) 2)
  return (u, v)

/-- `PointDoublet.compute_psi`:
`-strength/2/pi * yrel / (xrel**2 + yrel**2)`. -/
def PointDoublet.compute_psi (d : PointDoublet) (x y : PyVal) :
    Except PyErr PyVal := do
  let xrel := pysub x (pyfloat d.x)
  let yrel := pysub y (pyfloat d.y)
  let psi ← pydiv (pymul (pyfloat (-d.strength / 2 / Real.pi)) yrel)
                  (pyadd (pypow xrel 2) (pypow yrel 2))
  return psi

/-- `class PointSource` — constructor defaults `x=0., y=0., strength=1.,
default_color='r'`.  `__init__` assigns only `x`, `y`, `strength`,
`default_color`; in particular the attributes `xrel` and `yrel` read by
`compute_psi` are never assigned anywhere in the class. -/
structure PointSource where
  x : ℝ := 0
  y : ℝ := 0
  strength : ℝ := 1
  default_color : String := "r"

/-- Reading `self.xrel` on a `PointSource`: the attribute is never assigned,
so the access raises `AttributeError`. -/
def PointSource.xrel_attr (_ : PointSource) : Except PyErr ℝ :=
  .error .attributeError

/-- Reading `self.yrel` on a `PointSource`: the attribute is never assigned,
so the access raises `AttributeError`. -/
def PointSource.yrel_attr (_ : PointSource) : Except PyErr ℝ :=
  .error .attributeError

/-- `PointSource.compute_flow`:
`u = strength/2/pi * xrel / (xrel**2 + yrel**2)`,
`v = strength/2/pi * yrel / (xrel**2 + yrel**2)`. -/
def PointSource.compute_flow (s : PointSource) (x y : PyVal) :
    Except PyErr (PyVal × PyVal) := do
  let xrel := pysub x (pyfloat s.x)
  let yrel := pysub y (pyfloat s.y)
  let u ← pydiv (pymul (pyfloat (s.strength / 2 / Real.pi)) xrel)
                (pyadd (pypow xrel 2) (pypow yrel 2))
  let v ← pydiv (pymul (pyfloat (s.strength / 2 / Real.pi)) yrel)
                (pyadd (pypow xrel 2) (pypow yrel 2))
  return (u, v)

/-- `PointSource.compute_psi`:
`return strength/2/pi * arctan2(yrel - self.yrel, xrel - self.xrel)`.
The arguments of `arctan2` are evaluated left to right, so the read of the
never-assigned `self.yrel` raises `AttributeError` first. -/
def PointSource.compute_psi (s : PointSource) (x y : PyVal) :
    Except PyErr PyVal := do
  let xrel := pysub x (pyfloat s.x)
  let yrel := pysub y (pyfloat s.y)
  let syrel ← s.yrel_attr
  let sxrel ← s.xrel_attr
  return pymul (pyfloat (s.strength / 2 / Real.pi))
               (np_arctan2 (pysub yrel (pyfloat syrel)) (pysub xrel (pyfloat sxrel)))

/-- `class PointVortex` — constructor defaults `x=0., y=0., strength=1.,
default_color='c'`. -/
structure PointVortex where
  x : ℝ := 0
  y : ℝ := 0
  strength : ℝ := 1
  default_color : String := "c"

/-- `PointVortex.compute_flow`:
`u =  strength/2/pi * yrel / (xrel**2 + yrel**2)`,
`v = -strength/2/pi * xrel / (xrel**2 + yrel**2)`. -/
def PointVortex.compute_flow (v : PointVortex) (x y : PyVal) :
    Except PyErr (PyVal × PyVal) := do
  let xrel := pysub x (pyfloat v.x)
  let yrel := pysub y (pyfloat v.y)
  let uc ← pydiv (pymul (pyfloat (v.strength / 2 / Real.pi)) yrel)
                 (pyadd (pypow xrel 2) (pypow yrel 2))
  let vc ← pydiv (pymul (pyfloat (-v.strength / 2 / Real.pi)) xrel)
                 (pyadd (pypow xrel 2) (pypow yrel 2))
  return (uc, vc)

/-- `PointVortex.compute_psi`:
`return strength/4/pi * log(xrel**2 + yrel**2)` where `log` is `math.log`
(imported from the standard library, not numpy), so an array argument of size
≠ 1 raises `TypeError`. -/
def PointVortex.compute_psi (v : PointVortex) (x y : PyVal) :
    Except PyErr PyVal := do
  let xrel := pysub x (pyfloat v.x)
  let yrel := pysub y (pyfloat v.y)
  let l ← math_log (pyadd (pypow xrel 2) (pypow yrel 2))
  return pymul (pyfloat (v.strength / 4 / Real.pi)) l

/-- The closed variant set of singularities held by a `FlowField2D`. -/
inductive Point where
  | src : PointSource → Point
  | vtx : PointVortex → Point
  | dbl : PointDoublet → Point

/-- Dynamic dispatch of `point.compute_flow(x, y)`. -/
def Point.compute_flow : Point → PyVal → PyVal → Except PyErr (PyVal × PyVal)
  | .src s, x, y => s.compute_flow x y
  | .vtx v, x, y => v.compute_flow x y
  | .dbl d, x, y => d.compute_flow x y

/-- Dynamic dispatch of `point.compute_psi(x, y)`. -/
def Point.compute_psi : Point → PyVal → PyVal → Except PyErr PyVal
  | .src s, x, y => s.compute_psi x y
  | .vtx v, x, y => v.compute_psi x y
  | .dbl d, x, y => d.compute_psi x y

/-! ## The aggregator (`src/potential/d2/_flow_field.py`) -/

/-- `np.linspace(a, b, num)`: `num` evenly spaced samples from `a` to `b`
inclusive; a negative `num` raises ValueError, `num = 0` silently yields an
empty array.  (For `num = 1` numpy returns `[a]`; the formula below agrees
since `0 * (b - a) / 0 = 0` with Lean's total real division.) -/
def linspace (a b : ℝ) (num : ℤ) : Except PyErr (List ℝ) :=
  if num < 0 then .error .valueError
  else .ok ((List.range num.toNat).map
    (fun (i : ℕ) => a + (i : ℝ) * (b - a) / ((num.toNat - 1 : ℕ) : ℝ)))

/-- `np.meshgrid(xv, yv)`: two arrays of shape `(len(yv), len(xv))`; the
first repeats `xv` along every row, the second repeats `yv` down every
column. -/
def meshgrid (xs ys : List ℝ) : Arr2 × Arr2 :=
  (⟨ys.length, xs.length, fun _ j => some (xs.getD j 0)⟩,
   ⟨ys.length, xs.length, fun i _ => some (ys.getD i 0)⟩)

/-- `class FlowField2D` — constructor defaults `uinf=0., alpha=0.,
xlim=(-1., 1.), ylim=(-1., 1.), nx=100, ny=100`; `__init__` stores all
arguments without any validation.  (The aliasing behaviour of the mutable
default argument `points=[]` is modelled separately below.) -/
structure FlowField2D where
  points : List Point := []
  uinf : ℝ := 0
  alpha : ℝ := 0
  xlim : ℝ × ℝ := (-1, 1)
  ylim : ℝ × ℝ := (-1, 1)
  nx : ℤ := 100
  ny : ℤ := 100

/-- Property `x_values`: `np.linspace(self.xlim[0], self.xlim[1], self.nx)`. -/
def FlowField2D.x_values (F : FlowField2D) : Except PyErr (List ℝ) :=
  linspace F.xlim.1 F.xlim.2 F.nx

/-- Property `y_values`: `np.linspace(self.ylim[0], self.ylim[1], self.ny)`. -/
def FlowField2D.y_values (F : FlowField2D) : Except PyErr (List ℝ) :=
  linspace F.ylim.1 F.ylim.2 F.ny

/-- Property `grid`: `np.meshgrid(self.x_values, self.y_values)`. -/
def FlowField2D.grid (F : FlowField2D) : Except PyErr (Arr2 × Arr2) := do
  let xs ← F.x_values
  let ys ← F.y_values
  return meshgrid xs ys

/-- Property `x`: `self.grid[0]`. -/
def FlowField2D.x (F : FlowField2D) : Except PyErr Arr2 := do
  let g ← F.grid
  return g.1

/-- Property `y`: `self.grid[1]`. -/
def FlowField2D.y (F : FlowField2D) : Except PyErr Arr2 := do
  let g ← F.grid
  return g.2

/-- Property `freestream`: `[uinf * cos(alpha), uinf * sin(alpha)]`. -/
def FlowField2D.freestream (F : FlowField2D) : List ℝ :=
  [F.uinf * Real.cos F.alpha, F.uinf * Real.sin F.alpha]

/-- One iteration of the loop in the `flow` property:
`point_flow = point.compute_flow(self.x, self.y); u += point_flow[0];`
`v += point_flow[1]`. -/
def flowStep (X Y : Arr2) (uv : PyVal × PyVal) (pt : Point) :
    Except PyErr (PyVal × PyVal) := do
  let pf ← pt.compute_flow (.arr X) (.arr Y)
  return (pyadd uv.1 pf.1, pyadd uv.2 pf.2)

/-- Property `flow`:
`u = np.ones(self.x.shape) * self.freestream[0]` (and likewise `v`), then the
per-point accumulation loop in collection order. -/
def FlowField2D.flow (F : FlowField2D) : Except PyErr (PyVal × PyVal) := do
  let X ← F.x
  let Y ← F.y
  let u := pymul (.arr (np_ones X.rows X.cols)) (pyfloat (F.freestream.getD 0 0))
  let v := pymul (.arr (np_ones X.rows X.cols)) (pyfloat (F.freestream.getD 1 0))
  F.points.foldlM (flowStep X Y) (u, v)

/-- One iteration of the loop in the `psi` property:
`psi += point.compute_psi(self.x, self.y)`. -/
def psiStep (X Y : Arr2) (acc : PyVal) (pt : Point) : Except PyErr PyVal := do
  let p ← pt.compute_psi (.arr X) (.arr Y)
  return pyadd acc p

/-- Property `psi`:
`psi = self.uinf * (self.y * cos(self.alpha) - self.x * sin(self.alpha))`,
then the per-point accumulation loop in collection order. -/
def FlowField2D.psi (F : FlowField2D) : Except PyErr PyVal := do
  let X ← F.x
  let Y ← F.y
  let base := pymul (pyfloat F.uinf)
    (pysub (pymul (.arr Y) (pyfloat (Real.cos F.alpha)))
           (pymul (.arr X) (pyfloat (Real.sin F.alpha))))
  F.points.foldlM (psiStep X Y) base

/-! ## CPython default-argument aliasing (`def __init__(self, points=[], ...)`)

The default value `[]` of the `points` parameter is evaluated once, when the
`def` statement runs, producing a single list object; every construction that
omits `points` binds `self.points` to that same object.  The heap below holds
list objects at addresses; address `0` is the one default list. -/

/-- A heap of Python list objects holding singularities. -/
structure Heap where
  cells : ℕ → List Point

/-- The address of the single default list object created when
`def __init__(self, points=[], ...)` was executed. -/
def defaultPointsAddr : ℕ := 0

/-- The heap right after the class definition ran: the default list object
exists and is empty. -/
def initHeap : Heap := ⟨fun _ => []⟩

/-- A constructed `FlowField2D` as far as its `points` attribute is
concerned: a reference to a list object. -/
structure FlowFieldRef where
  pointsAddr : ℕ

/-- `FlowField2D(...)` with `points` omitted binds `self.points` to the
shared default list object; passing a list binds to that caller-created
object.  No new list is allocated in either case. -/
def FlowField2D_init (pointsArg : Option ℕ) : FlowFieldRef :=
  match pointsArg with
  | none => ⟨defaultPointsAddr⟩
  | some a => ⟨a⟩

/-- `obj.points.append(p)`: mutates the referenced list object in place. -/
def Heap.append (h : Heap) (a : ℕ) (p : Point) : Heap :=
  ⟨fun i => if i = a then h.cells i ++ [p] else h.cells i⟩

/-- `obj.points` as observed through a reference. -/
def FlowFieldRef.getPoints (h : Heap) (f : FlowFieldRef) : List Point :=
  h.cells f.pointsAddr

/-! ## Cell-level values of the elementwise primitives

Numpy arithmetic over same-shape arrays is cellwise, so on array inputs each
`compute_flow` / doublet `compute_psi` produces the array of the following
cell values (proved by the reduction lemmas below, which are definitional). -/

/-- Cell value of `PointSource.compute_flow`'s `u`. -/
def PointSource.uCell (s : PointSource) (xc yc : PyFloat) : PyFloat :=
  fdivA (fmul (some (s.strength / 2 / Real.pi)) (fsub xc (some s.x)))
        (fadd (fpow (fsub xc (some s.x)) 2) (fpow (fsub yc (some s.y)) 2))

/-- Cell value of `PointSource.compute_flow`'s `v`. -/
def PointSource.vCell (s : PointSource) (xc yc : PyFloat) : PyFloat :=
  fdivA (fmul (some (s.strength / 2 / Real.pi)) (fsub yc (some s.y)))
        (fadd (fpow (fsub xc (some s.x)) 2) (fpow (fsub yc (some s.y)) 2))

/-- Cell value of `PointVortex.compute_flow`'s `u`. -/
def PointVortex.uCell (v : PointVortex) (xc yc : PyFloat) : PyFloat :=
  fdivA (fmul (some (v.strength / 2 / Real.pi)) (fsub yc (some v.y)))
        (fadd (fpow (fsub xc (some v.x)) 2) (fpow (fsub yc (some v.y)) 2))

/-- Cell value of `PointVortex.compute_flow`'s `v`. -/
def PointVortex.vCell (v : PointVortex) (xc yc : PyFloat) : PyFloat :=
  fdivA (fmul (some (-v.strength / 2 / Real.pi)) (fsub xc (some v.x)))
        (fadd (fpow (fsub xc (some v.x)) 2) (fpow (fsub yc (some v.y)) 2))

/-- Cell value of `PointDoublet.compute_flow`'s `u` (with the source's
absolute `y**2` in the numerator). -/
def PointDoublet.uCell (d : PointDoublet) (xc yc : PyFloat) : PyFloat :=
  fdivA (fmul (some (-d.strength / 2 / Real.pi))
              (fsub (fpow (fsub xc (some d.x)) 2) (fpow yc 2)))
        (fpow (fadd (fpow (fsub xc (some d.x)) 2) (fpow (fsub yc (some d.y)) 2)) 2)

/-- Cell value of `PointDoublet.compute_flow`'s `v`. -/
def PointDoublet.vCell (d : PointDoublet) (xc yc : PyFloat) : PyFloat :=
  fdivA (fmul (fmul (fmul (some (-d.strength / 2 / Real.pi)) (some 2))
                    (fsub xc (some d.x)))
              (fsub yc (some d.y)))
        (fpow (fadd (fpow (fsub xc (some d.x)) 2) (fpow (fsub yc (some d.y)) 2)) 2)

/-- Cell value of `PointDoublet.compute_psi`. -/
def PointDoublet.psiCell (d : PointDoublet) (xc yc : PyFloat) : PyFloat :=
  fdivA (fmul (some (-d.strength / 2 / Real.pi)) (fsub yc (some d.y)))
        (fadd (fpow (fsub xc (some d.x)) 2) (fpow (fsub yc (some d.y)) 2))

/-- Dispatched cell value of `compute_flow`'s `u`. -/
def Point.uCell : Point → PyFloat → PyFloat → PyFloat
  | .src s, xc, yc => s.uCell xc yc
  | .vtx v, xc, yc => v.uCell xc yc
  | .dbl d, xc, yc => d.uCell xc yc

/-- Dispatched cell value of `compute_flow`'s `v`. -/
def Point.vCell : Point → PyFloat → PyFloat → PyFloat
  | .src s, xc, yc => s.vCell xc yc
  | .vtx v, xc, yc => v.vCell xc yc
  | .dbl d, xc, yc => d.vCell xc yc

/-- The doublet `u` formula as the specification states it: in terms of the
relative offsets `dx`, `dy` only. -/
def doublet_u_spec (mu x0 y0 x y : ℝ) : ℝ :=
  -mu / (2 * Real.pi) * ((x - x0) ^ 2 - (y - y0) ^ 2) /
    ((x - x0) ^ 2 + (y - y0) ^ 2) ^ 2

/-! ## Reduction lemmas: array inputs evaluate cellwise -/

lemma source_flow_arr_cells (s : PointSource) (X Y : Arr2) :
    s.compute_flow (.arr X) (.arr Y) =
      .ok (.arr ⟨X.rows, X.cols, fun i j => s.uCell (X.val i j) (Y.val i j)⟩,
           .arr ⟨Y.rows, Y.cols, fun i j => s.vCell (X.val i j) (Y.val i j)⟩) := rfl

lemma vortex_flow_arr_cells (v : PointVortex) (X Y : Arr2) :
    v.compute_flow (.arr X) (.arr Y) =
      .ok (.arr ⟨Y.rows, Y.cols, fun i j => v.uCell (X.val i j) (Y.val i j)⟩,
           .arr ⟨X.rows, X.cols, fun i j => v.vCell (X.val i j) (Y.val i j)⟩) := rfl

lemma doublet_flow_arr_cells (d : PointDoublet) (X Y : Arr2) :
    d.compute_flow (.arr X) (.arr Y) =
      .ok (.arr ⟨X.rows, X.cols, fun i j => d.uCell (X.val i j) (Y.val i j)⟩,
           .arr ⟨X.rows, X.cols, fun i j => d.vCell (X.val i j) (Y.val i j)⟩) := rfl

lemma doublet_psi_arr_cells (d : PointDoublet) (X Y : Arr2) :
    d.compute_psi (.arr X) (.arr Y) =
      .ok (.arr ⟨Y.rows, Y.cols, fun i j => d.psiCell (X.val i j) (Y.val i j)⟩) := rfl

lemma point_flow_arr_cells (pt : Point) (X Y : Arr2) :
    ∃ ru cu rv cv,
      pt.compute_flow (.arr X) (.arr Y) =
        .ok (.arr ⟨ru, cu, fun i j => pt.uCell (X.val i j) (Y.val i j)⟩,
             .arr ⟨rv, cv, fun i j => pt.vCell (X.val i j) (Y.val i j)⟩) := by
  cases pt with
  | src s => exact ⟨X.rows, X.cols, Y.rows, Y.cols, rfl⟩
  | vtx v => exact ⟨Y.rows, Y.cols, X.rows, X.cols, rfl⟩
  | dbl d => exact ⟨X.rows, X.cols, X.rows, X.cols, rfl⟩

/-! ## Arithmetic helper lemmas -/

lemma fadd_right_comm (a b c : PyFloat) :
    fadd (fadd a b) c = fadd (fadd a c) b := by
  cases a <;> cases b <;> cases c <;> simp [fadd, add_right_comm]

lemma pyadd_right_comm (A : Arr2) (y z : PyVal) :
    pyadd (pyadd (.arr A) y) z = pyadd (pyadd (.arr A) z) y := by
  cases y <;> cases z <;>
    · simp only [pyadd, lift2]
      congr 1
      exact Arr2.ext rfl rfl
        (funext fun i => funext fun j => fadd_right_comm _ _ _)

/-! ## Fold lemmas for the accumulation loops -/

lemma flow_foldlM (X Y : Arr2) (l : List Point) (u v : Arr2) :
    l.foldlM (flowStep X Y) (PyVal.arr u, PyVal.arr v) =
      .ok (.arr ⟨u.rows, u.cols, fun i j =>
             l.foldl (fun a pt => fadd a (pt.uCell (X.val i j) (Y.val i j)))
               (u.val i j)⟩,
           .arr ⟨v.rows, v.cols, fun i j =>
             l.foldl (fun a pt => fadd a (pt.vCell (X.val i j) (Y.val i j)))
               (v.val i j)⟩) := by
  induction l generalizing u v with
  | nil => rfl
  | cons pt l ih =>
      obtain ⟨ru, cu, rv, cv, h⟩ := point_flow_arr_cells pt X Y
      have hstep : flowStep X Y (PyVal.arr u, PyVal.arr v) pt =
          .ok (.arr ⟨u.rows, u.cols, fun i j =>
                 fadd (u.val i j) (pt.uCell (X.val i j) (Y.val i j))⟩,
               .arr ⟨v.rows, v.cols, fun i j =>
                 fadd (v.val i j) (pt.vCell (X.val i j) (Y.val i j))⟩) := by
        simp only [flowStep, h]
        rfl
      rw [List.foldlM_cons, hstep]
      show List.foldlM (flowStep X Y) _ l = _
      rw [ih]
      rfl

lemma psi_foldlM_dbl (X Y : Arr2) (ds : List PointDoublet) (acc : Arr2) :
    (ds.map Point.dbl).foldlM (psiStep X Y) (PyVal.arr acc) =
      .ok (.arr ⟨acc.rows, acc.cols, fun i j =>
        ds.foldl (fun a d => fadd a (d.psiCell (X.val i j) (Y.val i j)))
          (acc.val i j)⟩) := by
  induction ds generalizing acc with
  | nil => rfl
  | cons d ds ih =>
      have hstep : psiStep X Y (PyVal.arr acc) (Point.dbl d) =
          .ok (.arr ⟨acc.rows, acc.cols, fun i j =>
                 fadd (acc.val i j) (d.psiCell (X.val i j) (Y.val i j))⟩) := by
        simp only [psiStep, Point.compute_psi, doublet_psi_arr_cells]
        rfl
      rw [List.map_cons, List.foldlM_cons, hstep]
      show List.foldlM (psiStep X Y) _ (ds.map Point.dbl) = _
      rw [ih]
      rfl

/-! ## Grid helper lemmas -/

/-- The sample list `np.linspace(a, b, n)` produces for a nonnegative count. -/
def linvals (a b : ℝ) (n : ℕ) : List ℝ :=
  (List.range n).map (fun (i : ℕ) => a + (i : ℝ) * (b - a) / ((n - 1 : ℕ) : ℝ))

lemma linspace_ok (a b : ℝ) (n : ℤ) (h : 0 ≤ n) :
    linspace a b n = .ok (linvals a b n.toNat) := by
  unfold linspace linvals
  rw [if_neg (not_lt.mpr h)]

lemma linvals_length (a b : ℝ) (n : ℕ) : (linvals a b n).length = n := by
  unfold linvals
  rw [List.length_map, List.length_range]

lemma linvals_getD (a b : ℝ) {n j : ℕ} (h : j < n) :
    (linvals a b n).getD j 0 = a + (j : ℝ) * (b - a) / ((n - 1 : ℕ) : ℝ) := by
  unfold linvals
  rw [List.getD_eq_getElem?_getD, List.getElem?_map, List.getElem?_range h]
  rfl

lemma FlowField2D.grid_ok (F : FlowField2D) (hx : 0 ≤ F.nx) (hy : 0 ≤ F.ny) :
    F.grid = .ok (meshgrid (linvals F.xlim.1 F.xlim.2 F.nx.toNat)
                           (linvals F.ylim.1 F.ylim.2 F.ny.toNat)) := by
  unfold FlowField2D.grid FlowField2D.x_values FlowField2D.y_values
  rw [linspace_ok _ _ _ hx, linspace_ok _ _ _ hy]
  rfl

lemma FlowField2D.x_ok (F : FlowField2D) (hx : 0 ≤ F.nx) (hy : 0 ≤ F.ny) :
    F.x = .ok (meshgrid (linvals F.xlim.1 F.xlim.2 F.nx.toNat)
                        (linvals F.ylim.1 F.ylim.2 F.ny.toNat)).1 := by
  unfold FlowField2D.x
  rw [F.grid_ok hx hy]
  rfl

lemma FlowField2D.y_ok (F : FlowField2D) (hx : 0 ≤ F.nx) (hy : 0 ≤ F.ny) :
    F.y = .ok (meshgrid (linvals F.xlim.1 F.xlim.2 F.nx.toNat)
                        (linvals F.ylim.1 F.ylim.2 F.ny.toNat)).2 := by
  unfold FlowField2D.y
  rw [F.grid_ok hx hy]
  rfl

/-! ## Characterization of the composite velocity field -/

/-- The grid x-coordinate of column `j`. -/
def FlowField2D.gx (F : FlowField2D) (j : ℕ) : ℝ :=
  (linvals F.xlim.1 F.xlim.2 F.nx.toNat).getD j 0

/-- The grid y-coordinate of row `i`. -/
def FlowField2D.gy (F : FlowField2D) (i : ℕ) : ℝ :=
  (linvals F.ylim.1 F.ylim.2 F.ny.toNat).getD i 0

lemma flow_cells (F : FlowField2D) (hx : 0 ≤ F.nx) (hy : 0 ≤ F.ny) :
    F.flow = .ok
      (.arr ⟨F.ny.toNat, F.nx.toNat, fun i j =>
         F.points.foldl
           (fun a pt => fadd a (pt.uCell (some (F.gx j)) (some (F.gy i))))
           (fmul (some 1) (some (F.uinf * Real.cos F.alpha)))⟩,
       .arr ⟨F.ny.toNat, F.nx.toNat, fun i j =>
         F.points.foldl
           (fun a pt => fadd a (pt.vCell (some (F.gx j)) (some (F.gy i))))
           (fmul (some 1) (some (F.uinf * Real.sin F.alpha)))⟩) := by
  unfold FlowField2D.flow
  rw [F.x_ok hx hy, F.y_ok hx hy]
  show List.foldlM
      (flowStep
        (meshgrid (linvals F.xlim.1 F.xlim.2 F.nx.toNat)
                  (linvals F.ylim.1 F.ylim.2 F.ny.toNat)).1
        (meshgrid (linvals F.xlim.1 F.xlim.2 F.nx.toNat)
                  (linvals F.ylim.1 F.ylim.2 F.ny.toNat)).2)
      (PyVal.arr ⟨(linvals F.ylim.1 F.ylim.2 F.ny.toNat).length,
                  (linvals F.xlim.1 F.xlim.2 F.nx.toNat).length,
                  fun _ _ => fmul (some 1) (some (F.uinf * Real.cos F.alpha))⟩,
       PyVal.arr ⟨(linvals F.ylim.1 F.ylim.2 F.ny.toNat).length,
                  (linvals F.xlim.1 F.xlim.2 F.nx.toNat).length,
                  fun _ _ => fmul (some 1) (some (F.uinf * Real.sin F.alpha))⟩)
      F.points = _
  rw [flow_foldlM]
  simp only [linvals_length]
  rfl

/-! ## Characterization of the composite stream function (doublet case) -/

lemma psi_cells_dbl (F : FlowField2D) (ds : List PointDoublet)
    (hp : F.points = ds.map Point.dbl) (hx : 0 ≤ F.nx) (hy : 0 ≤ F.ny) :
    F.psi = .ok
      (.arr ⟨F.ny.toNat, F.nx.toNat, fun i j =>
         ds.foldl
           (fun a d => fadd a (d.psiCell (some (F.gx j)) (some (F.gy i))))
           (some (F.uinf *
             (F.gy i * Real.cos F.alpha - F.gx j * Real.sin F.alpha)))⟩) := by
  unfold FlowField2D.psi
  rw [F.x_ok hx hy, F.y_ok hx hy, hp]
  show List.foldlM
      (psiStep
        (meshgrid (linvals F.xlim.1 F.xlim.2 F.nx.toNat)
                  (linvals F.ylim.1 F.ylim.2 F.ny.toNat)).1
        (meshgrid (linvals F.xlim.1 F.xlim.2 F.nx.toNat)
                  (linvals F.ylim.1 F.ylim.2 F.ny.toNat)).2)
      (PyVal.arr ⟨(linvals F.ylim.1 F.ylim.2 F.ny.toNat).length,
                  (linvals F.xlim.1 F.xlim.2 F.nx.toNat).length,
                  fun i j => fmul (some F.uinf)
                    (fsub (fmul (some (F.gy i)) (some (Real.cos F.alpha)))
                          (fmul (some (F.gx j)) (some (Real.sin F.alpha))))⟩)
      (ds.map Point.dbl) = _
  rw [psi_foldlM_dbl]
  simp only [linvals_length]
  rfl

/-! ## Generic `Except` reduction lemmas -/

lemma ok_bind {α β : Type} (a : α) (f : α → Except PyErr β) :
    (Except.ok a : Except PyErr α) >>= f = f a := rfl

lemma error_bind {α β : Type} (e : PyErr) (f : α → Except PyErr β) :
    (Except.error e : Except PyErr α) >>= f = .error e := rfl

/-! ## The claims -/

/-- Claim C1 (code bug in `PointDoublet.compute_flow`): for the doublet of
strength 1 at (0, 1) evaluated at (1, 2) — so dx = 1, dy = 1 — the code
returns u = 3/(8π), because its numerator uses the absolute `y**2` instead of
`yrel**2`, whereas the formula of the claim, written in dx and dy only, gives
u = 0; the two values differ since π > 0.  (The v-component, which does use
`yrel`, comes out as −1/(4π).) -/
theorem C1_doublet_u_uses_absolute_y :
    PointDoublet.compute_flow ⟨0, 1, 1, "g"⟩ (pyfloat 1) (pyfloat 2) =
      .ok (.float (some (3 / (8 * Real.pi))),
           .float (some (-1 / (4 * Real.pi)))) ∧
    doublet_u_spec 1 0 1 1 2 = 0 ∧
    (3 / (8 * Real.pi) : ℝ) ≠ 0 := by
  have hpi := Real.pi_ne_zero
  have hpos := Real.pi_pos
  refine ⟨?_, ?_, ?_⟩
  · unfold PointDoublet.compute_flow
    simp only [pyfloat, pysub, pymul, pyadd, pypow, lift2, fsub, fadd, fmul,
      fpow, pydiv, fdivA]
    norm_num
    simp only [ok_bind, Except.ok.injEq, Prod.mk.injEq, PyVal.float.injEq,
      Option.some.injEq]
    constructor <;> (field_simp; ring)
  · unfold doublet_u_spec
    norm_num
  · positivity

/-- Claim C2 (code bug in `PointSource.compute_psi`): the call raises
`AttributeError` — `self.xrel` and `self.yrel` are read but never assigned
anywhere in the class — instead of returning `m/(2π)·atan2(y−y0, x−x0)`.
Evaluated at the default source (strength 1 at the origin) and the
off-singularity point (1, 1). -/
theorem C2_source_psi_attribute_error :
    PointSource.compute_psi ⟨0, 0, 1, "r"⟩ (pyfloat 1) (pyfloat 1) =
      .error .attributeError := rfl

/-- Claim C3 (code bug in `PointVortex.compute_psi`): applied to a well-formed
1×2 coordinate array none of whose points equals the vortex position, the call
raises `TypeError` (`math.log` from the standard library cannot take a
multi-element ndarray) instead of returning an array of the input shape. -/
theorem C3_vortex_psi_array_type_error :
    PointVortex.compute_psi ⟨0, 0, 1, "c"⟩
      (.arr ⟨1, 2, fun _ j => some ((j : ℝ) + 1)⟩)
      (.arr ⟨1, 2, fun _ _ => some 0⟩) = .error .typeError := rfl

/-- Claim C10 (code bug in `FlowField2D.__init__`): the default argument
`points=[]` is a single list object shared by every construction that omits
`points`, so appending a vortex through the first default-constructed
instance makes the second default-constructed instance observe `[vortex]`
instead of its original empty collection. -/
theorem C10_shared_default_points_list :
    (FlowFieldRef.getPoints initHeap (FlowField2D_init none) = []) ∧
    (FlowFieldRef.getPoints
        (Heap.append initHeap (FlowField2D_init none).pointsAddr
          (Point.vtx ⟨0, 0, 1, "c"⟩))
        (FlowField2D_init none) = [Point.vtx ⟨0, 0, 1, "c"⟩]) :=
  ⟨rfl, rfl⟩

/-- Claim C8 counterexample: with inverted x-limits `xlim = (1, -1)` and
positive sample counts, neither construction nor grid generation raises —
`x_values` silently yields the decreasing samples `[1, 0, -1]` and `grid`
succeeds, contradicting the claimed fail-fast validation. -/
theorem C8_inverted_xlim_silently_accepted :
    FlowField2D.x_values ⟨[], 0, 0, (1, -1), (-1, 1), 3, 3⟩ =
      .ok [1, 0, -1] ∧
    ∃ G, FlowField2D.grid ⟨[], 0, 0, (1, -1), (-1, 1), 3, 3⟩ = .ok G := by
  constructor
  · show linspace 1 (-1) 3 = _
    rw [linspace_ok _ _ _ (by decide)]
    have h3 : (3 : ℤ).toNat = 3 := rfl
    norm_num [linvals, h3, List.range_succ]
  · exact ⟨_, FlowField2D.grid_ok _ (by decide) (by decide)⟩

/-- Claim C8 amended: `FlowField2D` performs no validation at all — for every
configuration with nonnegative sample counts, construction stores the
arguments untouched and grid generation succeeds even when
`xlim[0] ≥ xlim[1]` (and `nx = 0` silently yields an empty axis), producing a
reversed, constant or empty grid instead of failing fast. -/
theorem C8_amended_no_fail_fast (F : FlowField2D)
    (hlim : F.xlim.2 ≤ F.xlim.1) (hx : 0 ≤ F.nx) (hy : 0 ≤ F.ny) :
    ∃ X Y, F.grid = .ok (X, Y) ∧ X.rows = F.ny.toNat ∧ X.cols = F.nx.toNat := by
  refine ⟨_, _, F.grid_ok hx hy, ?_, ?_⟩ <;>
    simp [meshgrid, linvals_length]

/-- Witness for `C8_amended_no_fail_fast` at the inverted configuration
`xlim = (1, -1)`, `nx = ny = 3`. -/
theorem C8_amended_no_fail_fast_witness :
    ∃ X Y, FlowField2D.grid ⟨[], 0, 0, (1, -1), (-1, 1), 3, 3⟩ = .ok (X, Y) ∧
      X.rows = (3 : ℤ).toNat ∧ X.cols = (3 : ℤ).toNat :=
  C8_amended_no_fail_fast ⟨[], 0, 0, (1, -1), (-1, 1), 3, 3⟩
    (by norm_num) (by decide) (by decide)

/-- Claim C9 (grid generation): for every valid configuration the grid is a
pair of (ny, nx) arrays, x varying along columns as the nx evenly spaced
samples from `xlim[0]` to `xlim[1]` inclusive (the extreme columns carry the
endpoints exactly), y varying along rows likewise. -/
theorem C9_grid_meshgrid_semantics (F : FlowField2D)
    (hx1 : F.xlim.1 < F.xlim.2) (hy1 : F.ylim.1 < F.ylim.2)
    (hnx : 0 < F.nx) (hny : 0 < F.ny) :
    ∃ X Y, F.grid = .ok (X, Y) ∧
      X.rows = F.ny.toNat ∧ X.cols = F.nx.toNat ∧
      Y.rows = F.ny.toNat ∧ Y.cols = F.nx.toNat ∧
      (∀ i j, j < F.nx.toNat →
        X.val i j = some (F.xlim.1 + (j : ℝ) * (F.xlim.2 - F.xlim.1) /
          ((F.nx.toNat - 1 : ℕ) : ℝ))) ∧
      (∀ i j, i < F.ny.toNat →
        Y.val i j = some (F.ylim.1 + (i : ℝ) * (F.ylim.2 - F.ylim.1) /
          ((F.ny.toNat - 1 : ℕ) : ℝ))) ∧
      (∀ i, X.val i 0 = some F.xlim.1) ∧
      (2 ≤ F.nx → ∀ i, X.val i (F.nx.toNat - 1) = some F.xlim.2) ∧
      (∀ j, Y.val 0 j = some F.ylim.1) ∧
      (2 ≤ F.ny → ∀ j, Y.val (F.ny.toNat - 1) j = some F.ylim.2) := by
  have hnx0 : 0 < F.nx.toNat := by omega
  have hny0 : 0 < F.ny.toNat := by omega
  refine ⟨_, _, F.grid_ok hnx.le hny.le, ?_, ?_, ?_, ?_, ?_, ?_, ?_, ?_, ?_, ?_⟩
  · simp [meshgrid, linvals_length]
  · simp [meshgrid, linvals_length]
  · simp [meshgrid, linvals_length]
  · simp [meshgrid, linvals_length]
  · intro i j hj
    show some ((linvals F.xlim.1 F.xlim.2 F.nx.toNat).getD j 0) = _
    rw [linvals_getD _ _ hj]
  · intro i j hi
    show some ((linvals F.ylim.1 F.ylim.2 F.ny.toNat).getD i 0) = _
    rw [linvals_getD _ _ hi]
  · intro i
    show some ((linvals F.xlim.1 F.xlim.2 F.nx.toNat).getD 0 0) = _
    rw [linvals_getD _ _ hnx0]
    norm_num
  · intro h2 i
    have hn2 : 2 ≤ F.nx.toNat := by omega
    show some ((linvals F.xlim.1 F.xlim.2 F.nx.toNat).getD (F.nx.toNat - 1) 0)
        = _
    rw [linvals_getD _ _ (by omega)]
    congr 1
    rw [Nat.cast_sub (by omega : 1 ≤ F.nx.toNat), Nat.cast_one]
    have hne2 : ((F.nx.toNat : ℝ) - 1) ≠ 0 := by
      have h : (2 : ℝ) ≤ (F.nx.toNat : ℝ) := by exact_mod_cast hn2
      linarith
    field_simp
  · intro j
    show some ((linvals F.ylim.1 F.ylim.2 F.ny.toNat).getD 0 0) = _
    rw [linvals_getD _ _ hny0]
    norm_num
  · intro h2 j
    have hn2 : 2 ≤ F.ny.toNat := by omega
    show some ((linvals F.ylim.1 F.ylim.2 F.ny.toNat).getD (F.ny.toNat - 1) 0)
        = _
    rw [linvals_getD _ _ (by omega)]
    congr 1
    rw [Nat.cast_sub (by omega : 1 ≤ F.ny.toNat), Nat.cast_one]
    have hne2 : ((F.ny.toNat : ℝ) - 1) ≠ 0 := by
      have h : (2 : ℝ) ≤ (F.ny.toNat : ℝ) := by exact_mod_cast hn2
      linarith
    field_simp

/-- Witness for `C9_grid_meshgrid_semantics` at the configuration of the
claim's particular case: `nx = ny = 300` over `xlim = (-1, 2)`. -/
theorem C9_grid_meshgrid_semantics_witness :
    ∃ X Y,
      FlowField2D.grid ⟨[], 0, 0, (-1, 2), (-1, 1), 300, 300⟩ = .ok (X, Y) ∧
      X.rows = (300 : ℤ).toNat ∧ X.cols = (300 : ℤ).toNat ∧
      Y.rows = (300 : ℤ).toNat ∧ Y.cols = (300 : ℤ).toNat ∧
      (∀ i j, j < (300 : ℤ).toNat →
        X.val i j = some (-1 + (j : ℝ) * (2 - -1) /
          (((300 : ℤ).toNat - 1 : ℕ) : ℝ))) ∧
      (∀ i j, i < (300 : ℤ).toNat →
        Y.val i j = some (-1 + (i : ℝ) * (1 - -1) /
          (((300 : ℤ).toNat - 1 : ℕ) : ℝ))) ∧
      (∀ i, X.val i 0 = some (-1)) ∧
      (2 ≤ (300 : ℤ) → ∀ i, X.val i ((300 : ℤ).toNat - 1) = some 2) ∧
      (∀ j, Y.val 0 j = some (-1)) ∧
      (2 ≤ (300 : ℤ) → ∀ j, Y.val ((300 : ℤ).toNat - 1) j = some 1) :=
  C9_grid_meshgrid_semantics ⟨[], 0, 0, (-1, 2), (-1, 1), 300, 300⟩
    (by norm_num) (by norm_num) (by decide) (by decide)

/-- Claim C6: the composite velocity field at each grid cell is the constant
freestream vector `(uinf·cos α, uinf·sin α)` (broadcast over the (ny, nx)
grid) plus the elementwise sum of every singularity's `compute_flow`
contribution at that cell, accumulated in collection order. -/
theorem C6_flow_superposition (F : FlowField2D)
    (hx : 0 ≤ F.nx) (hy : 0 ≤ F.ny) :
    ∃ U V, F.flow = .ok (.arr U, .arr V) ∧
      U.rows = F.ny.toNat ∧ U.cols = F.nx.toNat ∧
      V.rows = F.ny.toNat ∧ V.cols = F.nx.toNat ∧
      (∀ i j, U.val i j =
        F.points.foldl
          (fun a pt => fadd a (pt.uCell (some (F.gx j)) (some (F.gy i))))
          (some (F.uinf * Real.cos F.alpha))) ∧
      (∀ i j, V.val i j =
        F.points.foldl
          (fun a pt => fadd a (pt.vCell (some (F.gx j)) (some (F.gy i))))
          (some (F.uinf * Real.sin F.alpha))) := by
  refine ⟨_, _, flow_cells F hx hy, rfl, rfl, rfl, rfl, ?_, ?_⟩ <;>
    · intro i j
      simp only [fmul, one_mul]

/-- Witness for `C6_flow_superposition`: the freestream-only field
`uinf = 1, alpha = 0` with no singularities has u = 1 and v = 0 at every
grid cell. -/
theorem C6_flow_superposition_witness :
    ∃ U V, FlowField2D.flow ⟨[], 1, 0, (-1, 1), (-1, 1), 2, 2⟩ =
        .ok (.arr U, .arr V) ∧
      (∀ i j, U.val i j = some 1) ∧ (∀ i j, V.val i j = some 0) := by
  obtain ⟨U, V, hflow, _, _, _, _, hU, hV⟩ :=
    C6_flow_superposition ⟨[], 1, 0, (-1, 1), (-1, 1), 2, 2⟩
      (by decide) (by decide)
  refine ⟨U, V, hflow, fun i j => ?_, fun i j => ?_⟩
  · rw [hU i j]
    show some ((1 : ℝ) * Real.cos 0) = _
    norm_num
  · rw [hV i j]
    show some ((1 : ℝ) * Real.sin 0) = _
    norm_num

/-- Claim C5 counterexample: for a field holding one default `PointSource`,
the composite stream function does not evaluate to any value at all — the
`compute_psi` call raises `AttributeError` (the never-assigned
`self.xrel`/`self.yrel`) — so psi does not equal the freestream term plus the
per-singularity sum at the grid points. -/
theorem C5_psi_raises_with_source :
    FlowField2D.psi
        ⟨[Point.src ⟨0, 0, 1, "r"⟩], 1, 0, (2, 3), (2, 3), 2, 2⟩ =
      .error .attributeError ∧
    ∀ p, FlowField2D.psi
        ⟨[Point.src ⟨0, 0, 1, "r"⟩], 1, 0, (2, 3), (2, 3), 2, 2⟩ ≠
      .ok p := by
  have h : FlowField2D.psi
      ⟨[Point.src ⟨0, 0, 1, "r"⟩], 1, 0, (2, 3), (2, 3), 2, 2⟩ =
      .error .attributeError := rfl
  refine ⟨h, fun p hp => ?_⟩
  rw [h] at hp
  exact Except.noConfusion hp

/-- Claim C5 amended: whenever every singularity's `compute_psi` evaluates
without raising — in particular when all singularities are doublets — the
composite stream function at each grid cell equals the freestream term
`uinf·(y·cos α − x·sin α)` plus the sum of the singularities' `compute_psi`
values at that cell, accumulated in collection order. -/
theorem C5_psi_superposition_doublets (F : FlowField2D)
    (ds : List PointDoublet) (hp : F.points = ds.map Point.dbl)
    (hx : 0 ≤ F.nx) (hy : 0 ≤ F.ny) :
    ∃ P, F.psi = .ok (.arr P) ∧
      P.rows = F.ny.toNat ∧ P.cols = F.nx.toNat ∧
      ∀ i j, P.val i j =
        ds.foldl
          (fun a d => fadd a (d.psiCell (some (F.gx j)) (some (F.gy i))))
          (some (F.uinf * (F.gy i * Real.cos F.alpha -
            F.gx j * Real.sin F.alpha))) :=
  ⟨_, psi_cells_dbl F ds hp hx hy, rfl, rfl, fun i j => rfl⟩

/-- Witness for `C5_psi_superposition_doublets` at a field holding one
doublet, over a grid away from the doublet position. -/
theorem C5_psi_superposition_doublets_witness :
    ∃ P, FlowField2D.psi
        ⟨[Point.dbl ⟨0, 0, 1, "g"⟩], 1, 0, (2, 3), (2, 3), 2, 2⟩ =
      .ok (.arr P) ∧
      P.rows = (2 : ℤ).toNat ∧ P.cols = (2 : ℤ).toNat ∧
      ∀ i j, P.val i j =
        [(⟨0, 0, 1, "g"⟩ : PointDoublet)].foldl
          (fun a d => fadd a (d.psiCell
            (some (FlowField2D.gx
              ⟨[Point.dbl ⟨0, 0, 1, "g"⟩], 1, 0, (2, 3), (2, 3), 2, 2⟩ j))
            (some (FlowField2D.gy
              ⟨[Point.dbl ⟨0, 0, 1, "g"⟩], 1, 0, (2, 3), (2, 3), 2, 2⟩ i))))
          (some (1 * (FlowField2D.gy
              ⟨[Point.dbl ⟨0, 0, 1, "g"⟩], 1, 0, (2, 3), (2, 3), 2, 2⟩ i *
                Real.cos 0 -
            FlowField2D.gx
              ⟨[Point.dbl ⟨0, 0, 1, "g"⟩], 1, 0, (2, 3), (2, 3), 2, 2⟩ j *
                Real.sin 0))) :=
  C5_psi_superposition_doublets
    ⟨[Point.dbl ⟨0, 0, 1, "g"⟩], 1, 0, (2, 3), (2, 3), 2, 2⟩
    [⟨0, 0, 1, "g"⟩] rfl (by decide) (by decide)

/-- Claim C4 (code bug): for the field with one unit vortex at the origin and
a 3×3 grid over (-1,1)² — whose centre cell (0,0) is exactly the vortex
position — the velocity field does complete, with non-finite values confined
to the singular centre cell while the corner cell keeps its correct finite
values (u = 1 − 1/(4π), v = 1/(4π)); but the composite stream function does
not complete without raising: it raises `TypeError` from `math.log` applied
to the 3×3 array. -/
theorem C4_singular_grid_psi_raises :
    FlowField2D.psi
        ⟨[Point.vtx ⟨0, 0, 1, "c"⟩], 1, 0, (-1, 1), (-1, 1), 3, 3⟩ =
      .error .typeError ∧
    ∃ U V, FlowField2D.flow
        ⟨[Point.vtx ⟨0, 0, 1, "c"⟩], 1, 0, (-1, 1), (-1, 1), 3, 3⟩ =
        .ok (.arr U, .arr V) ∧
      U.val 1 1 = none ∧ V.val 1 1 = none ∧
      U.val 0 0 = some (1 - 1 / (4 * Real.pi)) ∧
      V.val 0 0 = some (1 / (4 * Real.pi)) := by
  have hpi := Real.pi_ne_zero
  have hgx0 : FlowField2D.gx
      ⟨[Point.vtx ⟨0, 0, 1, "c"⟩], 1, 0, (-1, 1), (-1, 1), 3, 3⟩ 0 = -1 := by
    unfold FlowField2D.gx
    rw [show ((3 : ℤ).toNat) = 3 from rfl, linvals_getD _ _ (by norm_num)]
    norm_num
  have hgx1 : FlowField2D.gx
      ⟨[Point.vtx ⟨0, 0, 1, "c"⟩], 1, 0, (-1, 1), (-1, 1), 3, 3⟩ 1 = 0 := by
    unfold FlowField2D.gx
    rw [show ((3 : ℤ).toNat) = 3 from rfl, linvals_getD _ _ (by norm_num)]
    norm_num
  have hgy0 : FlowField2D.gy
      ⟨[Point.vtx ⟨0, 0, 1, "c"⟩], 1, 0, (-1, 1), (-1, 1), 3, 3⟩ 0 = -1 := by
    unfold FlowField2D.gy
    rw [show ((3 : ℤ).toNat) = 3 from rfl, linvals_getD _ _ (by norm_num)]
    norm_num
  have hgy1 : FlowField2D.gy
      ⟨[Point.vtx ⟨0, 0, 1, "c"⟩], 1, 0, (-1, 1), (-1, 1), 3, 3⟩ 1 = 0 := by
    unfold FlowField2D.gy
    rw [show ((3 : ℤ).toNat) = 3 from rfl, linvals_getD _ _ (by norm_num)]
    norm_num
  refine ⟨rfl, _, _, flow_cells _ (by decide) (by decide), ?_, ?_, ?_, ?_⟩
  · show List.foldl _ _ _ = none
    simp only [List.foldl_cons, List.foldl_nil, hgx1, hgy1, Point.uCell,
      PointVortex.uCell]
    norm_num [fsub, fadd, fmul, fpow, fdivA]
  · show List.foldl _ _ _ = none
    simp only [List.foldl_cons, List.foldl_nil, hgx1, hgy1, Point.vCell,
      PointVortex.vCell]
    norm_num [fsub, fadd, fmul, fpow, fdivA]
  · show List.foldl _ _ _ = some (1 - 1 / (4 * Real.pi))
    simp only [List.foldl_cons, List.foldl_nil, hgx0, hgy0, Point.uCell,
      PointVortex.uCell]
    norm_num [fsub, fadd, fmul, fpow, fdivA]
    field_simp
    ring
  · show List.foldl _ _ _ = some (1 / (4 * Real.pi))
    simp only [List.foldl_cons, List.foldl_nil, hgx0, hgy0, Point.vCell,
      PointVortex.vCell]
    norm_num [fsub, fadd, fmul, fpow, fdivA]
    field_simp
    ring

lemma pure_eq_ok {α : Type} (a : α) : (pure a : Except PyErr α) = .ok a := rfl

/-- Claim C7: superposition is order-independent — for any two singularities
A and B and any fixed freestream and grid configuration, the fields built
with [A, B] and with [B, A] produce identical velocity results, and whenever
either order produces a stream-function array they produce the same one. -/
theorem C7_superposition_order_independent (A B : Point) (uinf alpha : ℝ)
    (xlim ylim : ℝ × ℝ) (nx ny : ℤ) :
    FlowField2D.flow ⟨[A, B], uinf, alpha, xlim, ylim, nx, ny⟩ =
      FlowField2D.flow ⟨[B, A], uinf, alpha, xlim, ylim, nx, ny⟩ ∧
    ∀ p, (FlowField2D.psi ⟨[A, B], uinf, alpha, xlim, ylim, nx, ny⟩ =
            .ok p ↔
          FlowField2D.psi ⟨[B, A], uinf, alpha, xlim, ylim, nx, ny⟩ =
            .ok p) := by
  have hgrid2 : FlowField2D.grid ⟨[B, A], uinf, alpha, xlim, ylim, nx, ny⟩ =
      FlowField2D.grid ⟨[A, B], uinf, alpha, xlim, ylim, nx, ny⟩ := rfl
  cases hg : FlowField2D.grid ⟨[A, B], uinf, alpha, xlim, ylim, nx, ny⟩ with
  | error e =>
      have hx1 : FlowField2D.x ⟨[A, B], uinf, alpha, xlim, ylim, nx, ny⟩ =
          .error e := by
        unfold FlowField2D.x
        rw [hg]
        rfl
      have hx2 : FlowField2D.x ⟨[B, A], uinf, alpha, xlim, ylim, nx, ny⟩ =
          .error e := by
        unfold FlowField2D.x
        rw [hgrid2, hg]
        rfl
      have hf1 : FlowField2D.flow ⟨[A, B], uinf, alpha, xlim, ylim, nx, ny⟩ =
          .error e := by
        unfold FlowField2D.flow
        rw [hx1]
        rfl
      have hf2 : FlowField2D.flow ⟨[B, A], uinf, alpha, xlim, ylim, nx, ny⟩ =
          .error e := by
        unfold FlowField2D.flow
        rw [hx2]
        rfl
      have hp1 : FlowField2D.psi ⟨[A, B], uinf, alpha, xlim, ylim, nx, ny⟩ =
          .error e := by
        unfold FlowField2D.psi
        rw [hx1]
        rfl
      have hp2 : FlowField2D.psi ⟨[B, A], uinf, alpha, xlim, ylim, nx, ny⟩ =
          .error e := by
        unfold FlowField2D.psi
        rw [hx2]
        rfl
      rw [hf1, hf2, hp1, hp2]
      exact ⟨rfl, fun p => Iff.rfl⟩
  | ok G =>
      obtain ⟨X, Y⟩ := G
      have hx1 : FlowField2D.x ⟨[A, B], uinf, alpha, xlim, ylim, nx, ny⟩ =
          .ok X := by
        unfold FlowField2D.x
        rw [hg]
        rfl
      have hy1 : FlowField2D.y ⟨[A, B], uinf, alpha, xlim, ylim, nx, ny⟩ =
          .ok Y := by
        unfold FlowField2D.y
        rw [hg]
        rfl
      have hx2 : FlowField2D.x ⟨[B, A], uinf, alpha, xlim, ylim, nx, ny⟩ =
          .ok X := by
        unfold FlowField2D.x
        rw [hgrid2, hg]
        rfl
      have hy2 : FlowField2D.y ⟨[B, A], uinf, alpha, xlim, ylim, nx, ny⟩ =
          .ok Y := by
        unfold FlowField2D.y
        rw [hgrid2, hg]
        rfl
      obtain ⟨ruA, cuA, rvA, cvA, hA⟩ := point_flow_arr_cells A X Y
      obtain ⟨ruB, cuB, rvB, cvB, hB⟩ := point_flow_arr_cells B X Y
      constructor
      · unfold FlowField2D.flow
        rw [hx1, hy1, hx2, hy2]
        simp only [ok_bind, List.foldlM_cons, List.foldlM_nil, flowStep,
          hA, hB, pure_eq_ok, FlowField2D.freestream, List.getD,
          FlowField2D.uinf, FlowField2D.alpha, pymul, pyfloat, lift2]
        rw [pyadd_right_comm _
              (PyVal.arr ⟨ruA, cuA, fun i j => A.uCell (X.val i j) (Y.val i j)⟩)
              (PyVal.arr ⟨ruB, cuB, fun i j => B.uCell (X.val i j) (Y.val i j)⟩),
            pyadd_right_comm _
              (PyVal.arr ⟨rvA, cvA, fun i j => A.vCell (X.val i j) (Y.val i j)⟩)
              (PyVal.arr ⟨rvB, cvB, fun i j => B.vCell (X.val i j) (Y.val i j)⟩)]
      · intro p
        unfold FlowField2D.psi
        rw [hx1, hy1, hx2, hy2]
        cases hpA : Point.compute_psi A (.arr X) (.arr Y) with
        | error e =>
            cases hpB : Point.compute_psi B (.arr X) (.arr Y) with
            | error e2 =>
                simp only [ok_bind, List.foldlM_cons, List.foldlM_nil,
                  psiStep, hpA, hpB, error_bind, pure_eq_ok]
                constructor <;> intro h <;> simp at h
            | ok pB =>
                simp only [ok_bind, List.foldlM_cons, List.foldlM_nil,
                  psiStep, hpA, hpB, error_bind, pure_eq_ok]
        | ok pA =>
            cases hpB : Point.compute_psi B (.arr X) (.arr Y) with
            | error e2 =>
                simp only [ok_bind, List.foldlM_cons, List.foldlM_nil,
                  psiStep, hpA, hpB, error_bind, pure_eq_ok]
            | ok pB =>
                simp only [ok_bind, List.foldlM_cons, List.foldlM_nil,
                  psiStep, hpA, hpB, error_bind, pure_eq_ok, pymul, pysub,
                  pyfloat, lift2]
                rw [pyadd_right_comm]
